import Mathlib

/-!
Verification development for the feder8 federation node.

The definitions below are a shallow embedding of the Rust sources:
JSON values (`serde_json::Value`) become the `Json` inductive, the
entity store (`src/database.rs`) becomes a pure `Store` record with
explicit-state operations whose failure cases mirror the SQL
constraint semantics, and each handler becomes a pure function from
its inputs (plus the ambient clock / freshly minted uuids, passed
explicitly) to a new store and a response.  Timestamps are modelled
as natural numbers; RFC 3339 parsing is passed in as a function
parameter since only its success/failure shape matters to the
handlers.
-/

/-- Shallow embedding of `serde_json::Value`.  Numbers are integers
(the only numeric payloads the handlers produce are timestamps). -/
inductive Json where
  | null : Json
  | bool : Bool → Json
  | num : Int → Json
  | str : String → Json
  | arr : List Json → Json
  | obj : List (String × Json) → Json

/-- Embedding of `Value::get(key)` on objects (None on any other variant). -/
def Json.get (j : Json) (k : String) : Option Json :=
  match j with
  | Json.obj fields => (fields.find? (fun p => p.1 = k)).map Prod.snd
  | _ => none

/-- Embedding of `Value::as_str`. -/
def Json.asStr (j : Json) : Option String :=
  match j with
  | Json.str s => some s
  | _ => none

/-- Embedding of `Value::as_array`. -/
def Json.asArr (j : Json) : Option (List Json) :=
  match j with
  | Json.arr xs => some xs
  | _ => none

/-- Embedding of `value[key] = v` on a JSON object: replace the first
binding of `k` in place, or append a new binding. -/
def setFieldList (fields : List (String × Json)) (k : String) (v : Json) :
    List (String × Json) :=
  match fields with
  | [] => [(k, v)]
  | (k0, v0) :: rest =>
      if k0 = k then (k0, v) :: rest else (k0, v0) :: setFieldList rest k v

/-- Embedding of `value[key] = v` (only meaningful on objects; the
handlers only apply it to objects). -/
def Json.setField (j : Json) (k : String) (v : Json) : Json :=
  match j with
  | Json.obj fields => Json.obj (setFieldList fields k v)
  | other => other

/-- Extraction pattern `v.get(k).and_then(as_str).unwrap_or("")` used
throughout the inbox handler. -/
def getStrD (j : Json) (k : String) : String :=
  ((j.get k).bind Json.asStr).getD ""

/-- Extraction pattern
`v.get(k).and_then(as_array).map(|a| a.filter_map(as_str)).unwrap_or_default()`. -/
def getStrList (j : Json) (k : String) : List String :=
  match (j.get k).bind Json.asArr with
  | some xs => xs.filterMap Json.asStr
  | none => []

/-- Extraction pattern for `published`:
`v.get("published").and_then(as_str).and_then(parse_rfc3339).unwrap_or(now)`. -/
def getPublished (parseTime : String → Option Nat) (now : Nat) (j : Json) : Nat :=
  ((((j.get "published").bind Json.asStr)).bind parseTime).getD now

/-- Error body `serde_json::json!({"error": msg})`. -/
def errorBody (msg : String) : Json :=
  Json.obj [("error", Json.str msg)]

/-! ## HTTP signature service (`src/services/signature.rs`) -/

/-- Embedding of `SignatureVerification`. -/
inductive SignatureVerification where
  | Valid : SignatureVerification
  | Invalid : String → SignatureVerification
  | NotImplemented : SignatureVerification
deriving DecidableEq

/-- Embedding of `SignatureData`. -/
structure SignatureData where
  signature : String
  headers : List String
  algorithm : String
deriving DecidableEq

/-- Embedding of `SignatureData::placeholder`. -/
def SignatureData.placeholder : SignatureData :=
  { signature := "signature-placeholder"
    headers := ["(request-target)", "host", "date"]
    algorithm := "rsa-sha256" }

/-- Split a character list at the first `'='`, mirroring
`splitn(2, '=')`: `none` when the list has no `'='` (in Rust the
second chunk is then absent). -/
def splitFirstEq : List Char → Option (List Char × List Char)
  | [] => none
  | c :: rest =>
      if c = '=' then some ([], rest)
      else (splitFirstEq rest).map (fun p => (c :: p.1, p.2))

/-- Embedding of `str::trim_matches('"')`: drop all leading and
trailing double quotes. -/
def trimQuotes (cs : List Char) : List Char :=
  ((cs.dropWhile (fun c => c = '"')).reverse.dropWhile (fun c => c = '"')).reverse

/-- Embedding of `str::split(',')`: split at every comma, keeping
empty pieces (an empty string yields one empty piece). -/
def splitOnComma : List Char → List (List Char)
  | [] => [[]]
  | c :: cs =>
      let r := splitOnComma cs
      if c = ',' then [] :: r
      else
        match r with
        | [] => [[c]]
        | p :: ps => (c :: p) :: ps

/-- Embedding of `str::trim` (ASCII whitespace; the header values at
play contain none of the further Unicode whitespace Rust trims). -/
def trimChars (cs : List Char) : List Char :=
  ((cs.dropWhile Char.isWhitespace).reverse.dropWhile Char.isWhitespace).reverse

/-- Parse the comma-separated parts: each part is trimmed and split at
its first `'='` into a key/value pair (value unquoted); a part with
no `'='` is the error case
(`context("Missing value in signature part")`). -/
def parseParts : List (List Char) → Except String (List (String × String))
  | [] => Except.ok []
  | part :: rest =>
      match splitFirstEq (trimChars part) with
      | none => Except.error "Missing value in signature part"
      | some (k, v) =>
          match parseParts rest with
          | Except.error e => Except.error e
          | Except.ok ps => Except.ok ((String.mk k, String.mk (trimQuotes v)) :: ps)

/-- Embedding of `parse_signature_header`: split the header on commas
and parse each part (the Rust code collects the pairs into a map; the
handler only inspects success/failure, so the pair list stands in for
it). -/
def parse_signature_header (signature : String) :
    Except String (List (String × String)) :=
  parseParts (splitOnComma signature.data)

/-- Embedding of `verify_signature`: a header that parses is accepted
unconditionally (the TODO stub), a parse failure is `Invalid`. -/
def verify_signature (signature : String) : SignatureVerification :=
  match parse_signature_header signature with
  | Except.ok _ => SignatureVerification.Valid
  | Except.error e => SignatureVerification.Invalid e

/-- Embedding of `sign_request`: both the with-key and the without-key
branch return the placeholder. -/
def sign_request (privateKey : Option String) (_method _url : String)
    (_headers : List (String × String)) : Except String SignatureData :=
  match privateKey with
  | some _ => Except.ok SignatureData.placeholder
  | none => Except.ok SignatureData.placeholder

/-- Embedding of `create_http_signature`: format the result of
`sign_request` as a `Signature` header value. -/
def create_http_signature (privateKey : Option String) (method path : String)
    (headers : List (String × String)) : Except String String :=
  match sign_request privateKey method path headers with
  | Except.error e => Except.error e
  | Except.ok d =>
      Except.ok ("keyId=\"placeholder\",algorithm=\"" ++ d.algorithm ++
        "\",headers=\"" ++ String.intercalate " " d.headers ++
        "\",signature=\"" ++ d.signature ++ "\"")

/-! ## Outbound delivery (`src/services/delivery.rs`) -/

/-- Embedding of the abstract `HttpResponse` the client returns. -/
structure ClientHttpResponse where
  status : Nat
  body : List Nat
deriving DecidableEq

/-- Embedding of `deliver_activity`.  The HTTP client is a function
from url, headers and body to a transport result.  The `?` on
`post_with_headers` propagates a transport error; a response of any
status (2xx or not) only affects logging and yields `Ok(())`. -/
def deliver_activity (client : String → List (String × String) → Json →
    Except String ClientHttpResponse) (inboxUrl : String) (activity : Json)
    (userAgent : String) : Except String Unit :=
  let headers := [("Content-Type", "application/activity+json"),
                  ("User-Agent", userAgent)]
  match client inboxUrl headers activity with
  | Except.error e => Except.error e
  | Except.ok resp =>
      if 200 ≤ resp.status ∧ resp.status < 300 then Except.ok ()
      else Except.ok ()

/-! ## WebFinger (`src/handlers/webfinger.rs`) -/

/-- Embedding of `Config` (the fields the modelled handlers read). -/
structure Config where
  server_url : String

/-- Embedding of `WebFingerLink`. -/
structure WebFingerLink where
  rel : String
  link_type : Option String
  href : String
deriving DecidableEq

/-- Embedding of `WebFingerResponse`. -/
structure WebFingerResponse where
  subject : String
  links : List WebFingerLink
deriving DecidableEq

/-- WebFinger handler result: 200 with a JRD body, or 404 with no
body.  The handler reads only the configuration, never the store. -/
inductive WfResult where
  | ok : WebFingerResponse → WfResult
  | notFound : WfResult
deriving DecidableEq

/-- Embedding of `str::strip_prefix` on character lists. -/
def stripPre : List Char → List Char → Option (List Char)
  | [], s => some s
  | _ :: _, [] => none
  | p :: ps, c :: cs => if p = c then stripPre ps cs else none

/-- Embedding of `str::rsplit_once('@')`: split at the last `'@'`. -/
def rsplitAt : List Char → Option (List Char × List Char)
  | [] => none
  | c :: cs =>
      match rsplitAt cs with
      | some (l, r) => some (c :: l, r)
      | none => if c = '@' then some ([], cs) else none

/-- Embedding of `str::replace` restricted to a non-empty pattern:
replace non-overlapping occurrences left to right.  `skip` counts
characters of an already-matched occurrence still to consume. -/
def replaceGo (pat rep : List Char) (skip : Nat) : List Char → List Char
  | [] => []
  | c :: cs =>
      match skip with
      | Nat.succ k => replaceGo pat rep k cs
      | 0 =>
          if pat.isPrefixOf (c :: cs) then rep ++ replaceGo pat rep (pat.length - 1) cs
          else c :: replaceGo pat rep 0 cs

/-- Embedding of `server_url.replace("http://", "").replace("https://", "")`. -/
def stripScheme (url : String) : String :=
  String.mk (replaceGo "https://".data [] 0 (replaceGo "http://".data [] 0 url.data))

/-- Embedding of the `webfinger` handler: strip `acct:`, split at the
last `'@'`, compare the domain with the scheme-stripped server url;
on a match answer 200 with the JRD, otherwise 404 with no body. -/
def webfinger (cfg : Config) (resource : String) : WfResult :=
  match stripPre "acct:".data resource.data with
  | none => WfResult.notFound
  | some rest =>
      match rsplitAt rest with
      | none => WfResult.notFound
      | some (user, domain) =>
          if domain = (stripScheme cfg.server_url).data then
            let actorUrl := cfg.server_url ++ "/users/" ++ String.mk user
            WfResult.ok
              { subject := resource
                links :=
                  [{ rel := "self"
                     link_type := some "application/activity+json"
                     href := actorUrl },
                   { rel := "http://webfinger.net/rel/profile-page"
                     link_type := some "text/html"
                     href := cfg.server_url ++ "/users/" ++ String.mk user }] }
          else WfResult.notFound

/-! ## Entity store (`src/database.rs`) -/

/-- Embedding of `DbActor`. -/
structure DbActor where
  id : String
  username : String
  name : String
  summary : Option String
  public_key_pem : String
  private_key_pem : Option String
  created_at : Nat
  updated_at : Nat
deriving DecidableEq

/-- Embedding of `DbActivity` (the opaque `object` column keeps its
JSON value). -/
structure DbActivity where
  id : String
  actor_id : String
  activity_type : String
  object : Json
  to_recipients : List String
  cc_recipients : List String
  published : Nat
  created_at : Nat

/-- Embedding of `DbNote`. -/
structure DbNote where
  id : String
  attributed_to : String
  content : String
  to_recipients : List String
  cc_recipients : List String
  published : Nat
  in_reply_to : Option String
  tags : List String
  created_at : Nat
deriving DecidableEq

/-- Embedding of `DbFollowRelation`. -/
structure DbFollowRelation where
  id : String
  follower_id : String
  following_id : String
  status : String
  created_at : Nat
  updated_at : Nat
deriving DecidableEq

/-- Pure model of the SQLite-backed store: each table is a list of
rows in insertion order. -/
structure Store where
  actors : List DbActor
  activities : List DbActivity
  notes : List DbNote
  follows : List DbFollowRelation

/-- Error taxonomy relevant to the pure model: a primary-key
constraint violation maps to `AlreadyExists` (the
`From<sqlx::Error>` impl turns constraint errors into
`DatabaseError::AlreadyExists`); transport-level errors have no
counterpart in the pure store. -/
inductive DatabaseError where
  | AlreadyExists : DatabaseError
deriving DecidableEq

/-- Embedding of `get_actor_by_username`. -/
def Store.get_actor_by_username (s : Store) (u : String) : Option DbActor :=
  s.actors.find? (fun a => a.username = u)

/-- Embedding of `get_note_by_id`. -/
def Store.get_note_by_id (s : Store) (id : String) : Option DbNote :=
  s.notes.find? (fun n => n.id = id)

/-- Embedding of `create_note`: the `INSERT` fails with a constraint
violation (hence `AlreadyExists`) iff a note with that primary key is
already stored, leaving the store unchanged. -/
def Store.create_note (s : Store) (n : DbNote) : Except DatabaseError Store :=
  if s.notes.any (fun m => m.id = n.id) then Except.error DatabaseError.AlreadyExists
  else Except.ok { s with notes := s.notes ++ [n] }

/-- Embedding of `create_activity` (same constraint semantics). -/
def Store.create_activity (s : Store) (a : DbActivity) : Except DatabaseError Store :=
  if s.activities.any (fun b => b.id = a.id) then Except.error DatabaseError.AlreadyExists
  else Except.ok { s with activities := s.activities ++ [a] }

/-- Embedding of `create_follow` (same constraint semantics). -/
def Store.create_follow (s : Store) (f : DbFollowRelation) : Except DatabaseError Store :=
  if s.follows.any (fun g => g.id = f.id) then Except.error DatabaseError.AlreadyExists
  else Except.ok { s with follows := s.follows ++ [f] }

/-- Embedding of `update_follow_status`: an `UPDATE ... WHERE id = ?`
that rewrites the matching row (a no-op when no row matches). -/
def Store.update_follow_status (s : Store) (fid status : String) (now : Nat) : Store :=
  { s with follows := s.follows.map (fun f =>
      if f.id = fid then { f with status := status, updated_at := now } else f) }

/-- Handler response: status code plus optional JSON body. -/
structure HResponse where
  status : Nat
  body : Option Json

/-! ## Inbox handler (`src/handlers/inbox.rs`) -/

/-- Embedding of the `inbox` handler.  `parseTime` stands for
`chrono::DateTime::parse_from_rfc3339`, `now` for `Utc::now()`, and
`uuid` for the freshly generated `Uuid::new_v4()` of the Follow
branch; all three are explicit inputs of the pure model.  Dispatch on
the top-level `type` mirrors the Rust `match`: the Create/Note branch
persists the note only when no note with the extracted id exists and
then attempts to persist the wrapping activity (failures are logged
and swallowed); the Follow branch persists a pending relation when
the followed URI is the target actor's id; the Accept branch updates
the follow status; the Undo branch only logs and performs no store
operation; the response is 202 for every dispatched activity. -/
def inbox (cfg : Config) (parseTime : String → Option Nat) (now : Nat)
    (uuid : String) (username : String) (activity : Json) (s : Store) :
    Store × HResponse :=
  match s.get_actor_by_username username with
  | none => (s, ⟨404, some (errorBody "Actor not found")⟩)
  | some target_actor =>
    let s' :=
      match (activity.get "type").bind Json.asStr with
      | none => s
      | some aty =>
        if aty = "Create" then
          match activity.get "object" with
          | none => s
          | some obj =>
            match (obj.get "type").bind Json.asStr with
            | none => s
            | some oty =>
              if oty = "Note" then
                let note_id := getStrD obj "id"
                let s1 :=
                  match s.get_note_by_id note_id with
                  | none =>
                      let db_note : DbNote :=
                        { id := note_id
                          attributed_to := getStrD obj "attributedTo"
                          content := getStrD obj "content"
                          to_recipients := getStrList obj "to"
                          cc_recipients := getStrList obj "cc"
                          published := getPublished parseTime now obj
                          in_reply_to := (obj.get "inReplyTo").bind Json.asStr
                          tags := []
                          created_at := now }
                      match s.create_note db_note with
                      | Except.ok s2 => s2
                      | Except.error _ => s
                  | some _ => s
                let db_activity : DbActivity :=
                  { id := getStrD activity "id"
                    actor_id := getStrD activity "actor"
                    activity_type := "Create"
                    object := obj
                    to_recipients := getStrList activity "to"
                    cc_recipients := getStrList activity "cc"
                    published := getPublished parseTime now activity
                    created_at := now }
                match s1.create_activity db_activity with
                | Except.ok s2 => s2
                | Except.error _ => s1
              else s
        else if aty = "Follow" then
          let follower_id := getStrD activity "actor"
          let following_id := getStrD activity "object"
          if following_id = target_actor.id then
            let follow_id := cfg.server_url ++ "/follows/" ++ uuid
            match s.create_follow
                { id := follow_id
                  follower_id := follower_id
                  following_id := following_id
                  status := "pending"
                  created_at := now
                  updated_at := now } with
            | Except.ok s2 => s2
            | Except.error _ => s
          else s
        else if aty = "Accept" then
          match activity.get "object" with
          | none => s
          | some obj =>
            match (obj.get "id").bind Json.asStr with
            | some follow_id => s.update_follow_status follow_id "accepted" now
            | none => s
        else if aty = "Undo" then
          s
        else s
    (s', ⟨202, none⟩)

/-! ## Outbox POST handler (`src/handlers/outbox.rs`) -/

/-- Embedding of `post_outbox`.  `uuid_activity` and `uuid_note` are
the two freshly generated uuids; `now` is `Utc::now()`.  The
Create/Note branch mints the two ids, persists the note (500
"Failed to create note" on failure), persists the activity whose
object is the payload's object with `id` and `attributedTo`
overwritten (500 "Failed to create activity" on failure, without
removing the already-persisted note), and answers 201 with the
persisted activity; every other payload answers 201 with no body. -/
def post_outbox (cfg : Config) (now : Nat) (uuid_activity uuid_note : String)
    (username : String) (activity : Json) (s : Store) : Store × HResponse :=
  match s.get_actor_by_username username with
  | none => (s, ⟨404, some (errorBody "Actor not found")⟩)
  | some actor =>
    match (activity.get "type").bind Json.asStr with
    | none => (s, ⟨201, none⟩)
    | some aty =>
      if aty = "Create" then
        match activity.get "object" with
        | none => (s, ⟨201, none⟩)
        | some obj =>
          match (obj.get "type").bind Json.asStr with
          | none => (s, ⟨201, none⟩)
          | some oty =>
            if oty = "Note" then
              let activity_id := cfg.server_url ++ "/activities/" ++ uuid_activity
              let note_id := cfg.server_url ++ "/notes/" ++ uuid_note
              let to_recipients := getStrList activity "to"
              let cc_recipients := getStrList activity "cc"
              let db_note : DbNote :=
                { id := note_id
                  attributed_to := actor.id
                  content := getStrD obj "content"
                  to_recipients := to_recipients
                  cc_recipients := cc_recipients
                  published := now
                  in_reply_to := (obj.get "inReplyTo").bind Json.asStr
                  tags := []
                  created_at := now }
              match s.create_note db_note with
              | Except.error _ => (s, ⟨500, some (errorBody "Failed to create note")⟩)
              | Except.ok s1 =>
                let activity_object :=
                  (obj.setField "id" (Json.str note_id)).setField "attributedTo"
                    (Json.str actor.id)
                let db_activity : DbActivity :=
                  { id := activity_id
                    actor_id := actor.id
                    activity_type := "Create"
                    object := activity_object
                    to_recipients := to_recipients
                    cc_recipients := cc_recipients
                    published := now
                    created_at := now }
                match s1.create_activity db_activity with
                | Except.error _ =>
                    (s1, ⟨500, some (errorBody "Failed to create activity")⟩)
                | Except.ok s2 =>
                    (s2, ⟨201, some (Json.obj
                      [("id", Json.str activity_id),
                       ("type", Json.str "Create"),
                       ("actor", Json.str actor.id),
                       ("object", activity_object),
                       ("to", Json.arr (to_recipients.map Json.str)),
                       ("cc", Json.arr (cc_recipients.map Json.str)),
                       ("published", Json.num (Int.ofNat now))])⟩)
            else (s, ⟨201, none⟩)
      else (s, ⟨201, none⟩)

/-! ## Inbox queries (`get_inbox_activities`, `get_actor_inbox_count`) -/

/-- Lower-case hexadecimal digit (for JSON control-character escapes). -/
def hexDigit (n : Nat) : Char :=
  if n < 10 then Char.ofNat (48 + n) else Char.ofNat (87 + n)

/-- JSON escape of one character, as `serde_json` writes it. -/
def escapeJsonChar (c : Char) : List Char :=
  if c = '"' then ['\\', '"']
  else if c = '\\' then ['\\', '\\']
  else if c = Char.ofNat 8 then ['\\', 'b']
  else if c = Char.ofNat 12 then ['\\', 'f']
  else if c = Char.ofNat 10 then ['\\', 'n']
  else if c = Char.ofNat 13 then ['\\', 'r']
  else if c = Char.ofNat 9 then ['\\', 't']
  else if c.toNat < 32 then
    ['\\', 'u', '0', '0', hexDigit (c.toNat / 16), hexDigit (c.toNat % 16)]
  else [c]

/-- JSON serialization of a string (with surrounding quotes), as a
character list. -/
def serializeJsonStringChars (s : String) : List Char :=
  '"' :: s.data.flatMap escapeJsonChar ++ ['"']

/-- Comma-joined serialization of the elements of a string array. -/
def serializeListChars : List String → List Char
  | [] => []
  | [x] => serializeJsonStringChars x
  | x :: y :: rest => serializeJsonStringChars x ++ ',' :: serializeListChars (y :: rest)

/-- Serialization of a recipient list as stored in the
`to_recipients` / `cc_recipients` text columns
(`serde_json::to_string(&vec)`). -/
def serializeStringList (xs : List String) : String :=
  String.mk ('[' :: serializeListChars xs ++ [']'])

/-- SQL `LIKE` pattern matching (no ESCAPE clause): `'%'` matches any
run of characters, `'_'` any single character. -/
def likeMatch : List Char → List Char → Bool
  | [], s => s.isEmpty
  | '%' :: ps, s =>
      likeMatch ps s ||
        (match s with
         | [] => false
         | _ :: cs => likeMatch ('%' :: ps) cs)
  | '_' :: ps, s =>
      (match s with
       | [] => false
       | _ :: cs => likeMatch ps cs)
  | c :: ps, s =>
      (match s with
       | [] => false
       | c2 :: cs => c = c2 && likeMatch ps cs)
termination_by p s => (p.length, s.length)

/-- The query predicate `column LIKE '%' || actor_id || '%'`. -/
def likeContains (needle hay : String) : Bool :=
  likeMatch ('%' :: (needle.data ++ ['%'])) hay.data

/-- The `WHERE` clause of `get_inbox_activities` /
`get_actor_inbox_count`: the actor id is LIKE-contained in the
serialized `to` list or in the serialized `cc` list. -/
def inboxMatch (actor_id : String) (a : DbActivity) : Bool :=
  likeContains actor_id (serializeStringList a.to_recipients) ||
    likeContains actor_id (serializeStringList a.cc_recipients)

/-- Insertion step for `ORDER BY published DESC`. -/
def insertPublishedDesc (a : DbActivity) : List DbActivity → List DbActivity
  | [] => [a]
  | b :: bs =>
      if b.published ≤ a.published then a :: b :: bs
      else b :: insertPublishedDesc a bs

/-- Sorting by `published` descending. -/
def sortPublishedDesc : List DbActivity → List DbActivity
  | [] => []
  | a :: as_ => insertPublishedDesc a (sortPublishedDesc as_)

/-- Embedding of `get_inbox_activities`: LIKE-filter, order by
`published` descending, then the `OFFSET` / `LIMIT` window. -/
def get_inbox_activities (s : Store) (actor_id : String) (limit offset : Nat) :
    List DbActivity :=
  ((sortPublishedDesc (s.activities.filter (inboxMatch actor_id))).drop offset).take limit

/-- Embedding of `get_actor_inbox_count`: `COUNT(*)` under the same
`WHERE` clause. -/
def get_actor_inbox_count (s : Store) (actor_id : String) : Nat :=
  (s.activities.filter (inboxMatch actor_id)).length

/-- The specification's membership predicate for inbox queries: the
actor id is an element of `to` or `cc` under exact URI equality. -/
def specInboxMember (actor_id : String) (a : DbActivity) : Bool :=
  a.to_recipients.contains actor_id || a.cc_recipients.contains actor_id

/-- Substring test on character lists (plain containment, no
wildcards); reference semantics the LIKE predicate is compared with. -/
def containsSub (needle : List Char) : List Char → Bool
  | [] => needle.isEmpty
  | c :: cs => needle.isPrefixOf (c :: cs) || containsSub needle cs

/-! ## Concrete instances used by counterexamples and witnesses -/

/-- An actor of the example server. -/
def exActor : DbActor :=
  { id := "http://s.example/users/bob"
    username := "bob"
    name := "Bob"
    summary := none
    public_key_pem := "PEM"
    private_key_pem := none
    created_at := 0
    updated_at := 0 }

/-- Configuration of the example server. -/
def exConfig : Config := { server_url := "http://s.example" }

/-- A store holding only the example actor. -/
def exStore : Store :=
  { actors := [exActor], activities := [], notes := [], follows := [] }

/-- A time parser that always falls back to the receive time. -/
def exParse : String → Option Nat := fun _ => none

/-- Example inbox Create activity wrapping a Note. -/
def exCreateNote : Json :=
  Json.obj
    [("type", Json.str "Create"),
     ("id", Json.str "https://remote.example/acts/1"),
     ("actor", Json.str "https://remote.example/users/carol"),
     ("object", Json.obj
       [("type", Json.str "Note"),
        ("id", Json.str "https://remote.example/n/1"),
        ("attributedTo", Json.str "https://remote.example/users/carol"),
        ("content", Json.str "hi")])]

/-- Example Undo-Follow activity targeting the example actor. -/
def exUndoFollow : Json :=
  Json.obj
    [("type", Json.str "Undo"),
     ("actor", Json.str "https://remote.example/users/carol"),
     ("object", Json.obj
       [("type", Json.str "Follow"),
        ("object", Json.str "http://s.example/users/bob")])]

/-- A pending follow relation from the remote actor to the example
actor. -/
def exFollow : DbFollowRelation :=
  { id := "http://s.example/follows/1"
    follower_id := "https://remote.example/users/carol"
    following_id := "http://s.example/users/bob"
    status := "pending"
    created_at := 0
    updated_at := 0 }

/-- A store holding the example actor and the pending follow. -/
def exFollowStore : Store :=
  { actors := [exActor], activities := [], notes := [], follows := [exFollow] }

/-- An activity already stored under the id the outbox handler will
mint for uuid `"u1"` (forces the `create_activity` insert to fail). -/
def exClashActivity : DbActivity :=
  { id := "http://s.example/activities/u1"
    actor_id := "http://s.example/users/bob"
    activity_type := "Create"
    object := Json.null
    to_recipients := []
    cc_recipients := []
    published := 0
    created_at := 0 }

/-- A store where the activity id minted for uuid `"u1"` is taken. -/
def exClashStore : Store :=
  { actors := [exActor], activities := [exClashActivity], notes := [], follows := [] }

/-- Example outbox Create payload. -/
def exOutboxCreate : Json :=
  Json.obj
    [("type", Json.str "Create"),
     ("object", Json.obj
       [("type", Json.str "Note"), ("content", Json.str "hello")]),
     ("to", Json.arr [Json.str "https://www.w3.org/ns/activitystreams#Public"])]

/-- The recipient whose URI strictly extends the queried actor id. -/
def ex3Act : DbActivity :=
  { id := "https://remote.example/acts/9"
    actor_id := "https://remote.example/users/carol"
    activity_type := "Create"
    object := Json.null
    to_recipients := ["http://s.example/users/bob2"]
    cc_recipients := []
    published := 0
    created_at := 0 }

/-- A store holding only `ex3Act`. -/
def ex3Store : Store :=
  { actors := [], activities := [ex3Act], notes := [], follows := [] }

/-- The actor id queried against `ex3Store`: a strict prefix of the
stored recipient URI. -/
def ex3Aid : String := "http://s.example/users/bob"

/-! ## Helper lemmas -/

theorem splitFirstEq_eq_none (cs : List Char) : splitFirstEq cs = none ↔ '=' ∉ cs := by
  induction cs with
  | nil => simp [splitFirstEq]
  | cons c rest ih =>
      by_cases hc : c = '='
      · subst hc; simp [splitFirstEq]
      · simp only [splitFirstEq, if_neg hc, Option.map_eq_none', ih, List.mem_cons]
        constructor
        · intro h hm
          rcases hm with hm | hm
          · exact hc hm.symm
          · exact h hm
        · intro h hm
          exact h (Or.inr hm)

theorem mem_dropWhile_of_not {α} (p : α → Bool) (l : List α) (c : α) (hc : p c = false) :
    c ∈ l.dropWhile p ↔ c ∈ l := by
  constructor
  · intro h
    exact (List.dropWhile_sublist (p := p) (l := l)).mem h
  · intro h
    rw [← List.takeWhile_append_dropWhile (p := p) (l := l)] at h
    rcases List.mem_append.1 h with h1 | h2
    · have := List.mem_takeWhile_imp h1
      rw [hc] at this
      exact absurd this (by simp)
    · exact h2

theorem mem_trimChars_iff (l : List Char) (c : Char) (hc : c.isWhitespace = false) :
    c ∈ trimChars l ↔ c ∈ l := by
  unfold trimChars
  rw [List.mem_reverse, mem_dropWhile_of_not _ _ _ hc, List.mem_reverse,
    mem_dropWhile_of_not _ _ _ hc]

theorem parseParts_ok_iff (parts : List (List Char)) :
    (∃ ps, parseParts parts = Except.ok ps) ↔ ∀ part ∈ parts, '=' ∈ part := by
  induction parts with
  | nil => simp [parseParts]
  | cons part rest ih =>
      simp only [parseParts, List.mem_cons]
      cases hsp : splitFirstEq (trimChars part) with
      | none =>
          have h1 : '=' ∉ trimChars part := (splitFirstEq_eq_none _).1 hsp
          have h2 : '=' ∉ part := fun hm =>
            h1 ((mem_trimChars_iff _ _ (by decide)).2 hm)
          simp only [hsp]
          constructor
          · rintro ⟨ps, hps⟩; cases hps
          · intro h
            exact absurd (h part (Or.inl rfl)) h2
      | some kv =>
          obtain ⟨k, v⟩ := kv
          have h1 : '=' ∈ trimChars part := by
            by_contra hno
            rw [(splitFirstEq_eq_none _).2 hno] at hsp
            cases hsp
          have h2 : '=' ∈ part := (mem_trimChars_iff _ _ (by decide)).1 h1
          simp only [hsp]
          constructor
          · rintro ⟨ps, hps⟩
            intro q hq
            rcases hq with hq | hq
            · subst hq; exact h2
            · cases hrest : parseParts rest with
              | error e => rw [hrest] at hps; cases hps
              | ok ps' => exact (ih.1 ⟨ps', hrest⟩) q hq
          · intro h
            rcases ih.2 (fun q hq => h q (Or.inr hq)) with ⟨ps, hps⟩
            exact ⟨_, by rw [hps]⟩

theorem parseParts_error_shape (parts : List (List Char)) :
    (∃ ps, parseParts parts = Except.ok ps) ∨
      parseParts parts = Except.error "Missing value in signature part" := by
  induction parts with
  | nil => exact Or.inl ⟨[], rfl⟩
  | cons part rest ih =>
      simp only [parseParts]
      cases hsp : splitFirstEq (trimChars part) with
      | none => exact Or.inr rfl
      | some kv =>
          obtain ⟨k, v⟩ := kv
          rcases ih with ⟨ps, hps⟩ | herr
          · exact Or.inl ⟨_, by rw [hps]⟩
          · rw [herr]; exact Or.inr rfl

/-! ## C7 -/

/-- C7 counterexample: the header `algorithm="rsa-sha256"` parses
(every part has a `key=value` shape) but has neither a `keyId` nor a
`signature` field, yet verification returns `Valid`, contradicting
the claim that such headers are never `Valid`. -/
theorem c7_counterexample :
    verify_signature "algorithm=\"rsa-sha256\"" = SignatureVerification.Valid := by
  decide

/-- C7 (amended): verification returns `Valid` exactly when every
comma-separated part of the header contains an `'='` (i.e. parses as
`key=value`); the presence of `keyId` or `signature` fields is never
checked, and the only non-`Valid` outcome is the parse-failure
`Invalid "Missing value in signature part"`. -/
theorem c7_verify_parse_only (s : String) :
    (verify_signature s = SignatureVerification.Valid ↔
      ∀ part ∈ splitOnComma s.data, '=' ∈ part) ∧
    (verify_signature s = SignatureVerification.Valid ∨
      verify_signature s = SignatureVerification.Invalid "Missing value in signature part") := by
  unfold verify_signature parse_signature_header
  constructor
  · constructor
    · intro hv
      cases hp : parseParts (splitOnComma s.data) with
      | ok ps => exact (parseParts_ok_iff _).1 ⟨ps, hp⟩
      | error e => rw [hp] at hv; cases hv
    · intro hall
      rcases (parseParts_ok_iff _).2 hall with ⟨ps, hp⟩
      rw [hp]
  · rcases parseParts_error_shape (splitOnComma s.data) with ⟨ps, hp⟩ | herr
    · rw [hp]; exact Or.inl rfl
    · rw [herr]; exact Or.inr rfl

/-- C7 witness: a concrete header all of whose parts parse is
accepted as `Valid` by the characterization. -/
theorem c7_verify_parse_only_witness :
    verify_signature "keyId=\"https://x.example/u#main-key\",signature=\"c2ln\"" =
      SignatureVerification.Valid :=
  (c7_verify_parse_only "keyId=\"https://x.example/u#main-key\",signature=\"c2ln\"").1.mpr
    (by decide)

/-! ## C8 -/

/-- C8 counterexample: a transport error from the HTTP client is
propagated by `deliver_activity` to its caller via `?`, contradicting
the claim that a single delivery attempt never propagates failure. -/
theorem c8_counterexample :
    deliver_activity (fun _ _ _ => Except.error "connection refused")
      "https://remote.example/inbox" (Json.obj []) "Fediverse-Node/0.1.0" =
      Except.error "connection refused" := rfl

/-- C8 (amended): `deliver_activity` is exactly the transport call
with its response discarded — a non-2xx HTTP response yields `Ok(())`
(the failure is only logged, no per-target result record exists), but
a transport/network error is propagated to the caller as an error. -/
theorem c8_delivery_propagates_transport_errors
    (client : String → List (String × String) → Json →
      Except String ClientHttpResponse) (url : String) (act : Json) (ua : String) :
    deliver_activity client url act ua =
      Except.map (fun _ => ())
        (client url [("Content-Type", "application/activity+json"),
                     ("User-Agent", ua)] act) := by
  unfold deliver_activity
  cases h : client url [("Content-Type", "application/activity+json"), ("User-Agent", ua)] act with
  | error e => simp [h, Except.map]
  | ok r => simp [h, Except.map]

/-! ## C9 -/

/-- C9: `create_http_signature` always returns the constant
placeholder `Signature` header, and `sign_request` is insensitive to
the configured private key (both branches return the placeholder). -/
theorem c9_sign_placeholder :
    ∀ (key : Option String) (method path : String) (headers : List (String × String)),
      create_http_signature key method path headers =
        Except.ok "keyId=\"placeholder\",algorithm=\"rsa-sha256\",headers=\"(request-target) host date\",signature=\"signature-placeholder\"" ∧
      ∀ key2 : Option String,
        sign_request key method path headers = sign_request key2 method path headers := by
  intro key method path headers
  refine ⟨?_, ?_⟩
  · cases key <;> rfl
  · intro key2; cases key <;> cases key2 <;> rfl

/-! ## C5 -/

/-- C5: on an Undo-Follow activity from the relation's follower
targeting the local actor, with the matching pending follow relation
stored, the inbox handler leaves the store — in particular the follow
relation — completely unchanged (the Undo branch only logs), so the
relation is neither deleted nor marked rejected. -/
theorem c5_undo_follow_is_noop :
    inbox exConfig exParse 7 "u5" "bob" exUndoFollow exFollowStore =
      (exFollowStore, ⟨202, none⟩) ∧
    exFollowStore.follows = [exFollow] := ⟨rfl, rfl⟩

/-! ## C2 -/

/-- C2 counterexample: with the minted activity id already taken in
the store (and the note id fresh), the outbox POST persists the note,
then fails to persist the activity and answers 500
`Failed to create activity` — but the newly created note remains
visible in the store, contradicting the no-partial-write claim. -/
theorem c2_counterexample :
    (post_outbox exConfig 3 "u1" "u2" "bob" exOutboxCreate exClashStore).2 =
      ⟨500, some (errorBody "Failed to create activity")⟩ ∧
    (post_outbox exConfig 3 "u1" "u2" "bob" exOutboxCreate exClashStore).1.notes =
      [{ id := "http://s.example/notes/u2"
         attributed_to := "http://s.example/users/bob"
         content := "hello"
         to_recipients := ["https://www.w3.org/ns/activitystreams#Public"]
         cc_recipients := []
         published := 3
         in_reply_to := none
         tags := []
         created_at := 3 }] := ⟨rfl, rfl⟩

/-- C2 (amended): persistence failures in the outbox Create/Note path
answer 500 with the claimed bodies, but the handler performs no
rollback: when the note insert fails nothing is written, and when the
note insert succeeds and the activity insert fails the newly created
note remains visible in the store. -/
theorem c2_outbox_failure_semantics
    (cfg : Config) (now : Nat) (ua un username : String) (act obj : Json)
    (s : Store) (actor : DbActor)
    (hactor : s.get_actor_by_username username = some actor)
    (hty : (act.get "type").bind Json.asStr = some "Create")
    (hobj : act.get "object" = some obj)
    (hnote : (obj.get "type").bind Json.asStr = some "Note") :
    (s.notes.any (fun m => m.id = cfg.server_url ++ "/notes/" ++ un) = true →
      post_outbox cfg now ua un username act s =
        (s, ⟨500, some (errorBody "Failed to create note")⟩)) ∧
    (s.notes.any (fun m => m.id = cfg.server_url ++ "/notes/" ++ un) = false →
      s.activities.any (fun b => b.id = cfg.server_url ++ "/activities/" ++ ua) = true →
      post_outbox cfg now ua un username act s =
        ({ s with notes := s.notes ++
            [{ id := cfg.server_url ++ "/notes/" ++ un
               attributed_to := actor.id
               content := getStrD obj "content"
               to_recipients := getStrList act "to"
               cc_recipients := getStrList act "cc"
               published := now
               in_reply_to := (obj.get "inReplyTo").bind Json.asStr
               tags := []
               created_at := now }] },
         ⟨500, some (errorBody "Failed to create activity")⟩)) := by
  constructor
  · intro h1
    simp [post_outbox, hactor, hty, hobj, hnote, Store.create_note, h1]
  · intro h1 h2
    simp [post_outbox, hactor, hty, hobj, hnote, Store.create_note,
      Store.create_activity, h1, h2]

/-- C2 witness: at the clash store the outbox POST answers 500. -/
theorem c2_outbox_failure_semantics_witness :
    (post_outbox exConfig 3 "u1" "u2" "bob" exOutboxCreate exClashStore).2.status = 500 := by
  rw [(c2_outbox_failure_semantics exConfig 3 "u1" "u2" "bob" exOutboxCreate
    (Json.obj [("type", Json.str "Note"), ("content", Json.str "hello")])
    exClashStore exActor rfl rfl rfl rfl).2 rfl rfl]

/-! ## C4 -/

/-- C4: an outbox POST of a Create/Note for an existing local actor
with both minted ids fresh persists a note whose `attributedTo` is
the actor's id and whose content / recipient lists come from the
payload, persists an activity whose object is the payload's object
augmented with the minted note id and `attributedTo`, and answers 201
with the persisted activity; the minted ids have the shapes
`<serverUrl>/activities/<uuid>` and `<serverUrl>/notes/<uuid>`. -/
theorem c4_outbox_create_note
    (cfg : Config) (now : Nat) (ua un username : String) (act obj : Json)
    (s : Store) (actor : DbActor)
    (hactor : s.get_actor_by_username username = some actor)
    (hty : (act.get "type").bind Json.asStr = some "Create")
    (hobj : act.get "object" = some obj)
    (hnote : (obj.get "type").bind Json.asStr = some "Note")
    (hfn : s.notes.any (fun m => m.id = cfg.server_url ++ "/notes/" ++ un) = false)
    (hfa : s.activities.any (fun b => b.id = cfg.server_url ++ "/activities/" ++ ua) = false) :
    post_outbox cfg now ua un username act s =
      ({ s with
          notes := s.notes ++
            [{ id := cfg.server_url ++ "/notes/" ++ un
               attributed_to := actor.id
               content := getStrD obj "content"
               to_recipients := getStrList act "to"
               cc_recipients := getStrList act "cc"
               published := now
               in_reply_to := (obj.get "inReplyTo").bind Json.asStr
               tags := []
               created_at := now }]
          activities := s.activities ++
            [{ id := cfg.server_url ++ "/activities/" ++ ua
               actor_id := actor.id
               activity_type := "Create"
               object := (obj.setField "id"
                   (Json.str (cfg.server_url ++ "/notes/" ++ un))).setField
                 "attributedTo" (Json.str actor.id)
               to_recipients := getStrList act "to"
               cc_recipients := getStrList act "cc"
               published := now
               created_at := now }] },
       ⟨201, some (Json.obj
         [("id", Json.str (cfg.server_url ++ "/activities/" ++ ua)),
          ("type", Json.str "Create"),
          ("actor", Json.str actor.id),
          ("object", (obj.setField "id"
              (Json.str (cfg.server_url ++ "/notes/" ++ un))).setField
            "attributedTo" (Json.str actor.id)),
          ("to", Json.arr ((getStrList act "to").map Json.str)),
          ("cc", Json.arr ((getStrList act "cc").map Json.str)),
          ("published", Json.num (Int.ofNat now))])⟩) := by
  simp [post_outbox, hactor, hty, hobj, hnote, Store.create_note,
    Store.create_activity, hfn, hfa]

/-- C4 witness: the outbox POST of the example Create/Note payload at
the example store answers 201. -/
theorem c4_outbox_create_note_witness :
    (post_outbox exConfig 3 "u1" "u2" "bob" exOutboxCreate exStore).2.status = 201 := by
  rw [c4_outbox_create_note exConfig 3 "u1" "u2" "bob" exOutboxCreate
    (Json.obj [("type", Json.str "Note"), ("content", Json.str "hello")])
    exStore exActor rfl rfl rfl rfl rfl rfl]

/-! ## C6 -/

theorem stripPre_append (p s : List Char) : stripPre p (p ++ s) = some s := by
  induction p with
  | nil => rfl
  | cons c cs ih => simp [stripPre, ih]

theorem stripPre_eq_some {p s r : List Char} (h : stripPre p s = some r) :
    s = p ++ r := by
  induction p generalizing s with
  | nil =>
      have h2 : s = r := Option.some.inj h
      simp [h2]
  | cons c cs ih =>
      cases s with
      | nil => cases h
      | cons c2 s2 =>
          simp only [stripPre] at h
          by_cases hc : c = c2
          · rw [if_pos hc] at h
            rw [List.cons_append, ← hc, ih h]
          · rw [if_neg hc] at h
            cases h

theorem rsplitAt_none {s : List Char} (h : '@' ∉ s) : rsplitAt s = none := by
  induction s with
  | nil => rfl
  | cons c cs ih =>
      have hc : ¬ c = '@' := fun hh => h (hh ▸ List.mem_cons_self c cs)
      have hcs : '@' ∉ cs := fun hm => h (List.mem_cons_of_mem _ hm)
      simp [rsplitAt, ih hcs, hc]

theorem rsplitAt_append_last {u h : List Char} (hh : '@' ∉ h) :
    rsplitAt (u ++ '@' :: h) = some (u, h) := by
  induction u with
  | nil => simp [rsplitAt, rsplitAt_none hh]
  | cons c cs ih => simp [rsplitAt, ih]

theorem rsplitAt_eq_some {s l r : List Char} (h : rsplitAt s = some (l, r)) :
    s = l ++ '@' :: r := by
  induction s generalizing l r with
  | nil => cases h
  | cons c cs ih =>
      simp only [rsplitAt] at h
      cases hcs : rsplitAt cs with
      | some p =>
          obtain ⟨pl, pr⟩ := p
          rw [hcs] at h
          injection h with h
          injection h with h1 h2
          subst h1; subst h2
          simp [List.cons_append, ← ih hcs]
      | none =>
          rw [hcs] at h
          by_cases hc : c = '@'
          · rw [if_pos hc] at h
            injection h with h
            injection h with h1 h2
            subst h1; subst h2
            simp [hc]
          · rw [if_neg hc] at h
            cases h

/-- C6: the WebFinger resolver accepts exactly the resources of the
form `acct:<user>@<host>` with `<host>` the scheme-stripped server
url, answering 200 with the resource verbatim as subject and
`<serverUrl>/users/<user>` as the `self` href; every other resource
gets a bodiless 404 (the handler, by its type, never reads the
store). -/
theorem c6_webfinger_characterization :
    (∀ (cfg : Config) (user : String),
      '@' ∉ (stripScheme cfg.server_url).data →
      webfinger cfg ("acct:" ++ user ++ "@" ++ stripScheme cfg.server_url) =
        WfResult.ok
          { subject := "acct:" ++ user ++ "@" ++ stripScheme cfg.server_url
            links :=
              [{ rel := "self"
                 link_type := some "application/activity+json"
                 href := cfg.server_url ++ "/users/" ++ user },
               { rel := "http://webfinger.net/rel/profile-page"
                 link_type := some "text/html"
                 href := cfg.server_url ++ "/users/" ++ user }] }) ∧
    (∀ (cfg : Config) (resource : String),
      (∀ user : String,
        resource ≠ "acct:" ++ user ++ "@" ++ stripScheme cfg.server_url) →
      webfinger cfg resource = WfResult.notFound) := by
  constructor
  · intro cfg user hat
    have hdata : ("acct:" ++ user ++ "@" ++ stripScheme cfg.server_url).data =
        "acct:".data ++ (user.data ++ '@' :: (stripScheme cfg.server_url).data) := by
      simp [String.data_append]
    unfold webfinger
    rw [hdata, stripPre_append]
    simp only [rsplitAt_append_last hat]
    simp
  · intro cfg resource hne
    unfold webfinger
    cases hsp : stripPre "acct:".data resource.data with
    | none => rfl
    | some rest =>
        cases hra : rsplitAt rest with
        | none => simp [hra]
        | some p =>
            obtain ⟨u, d⟩ := p
            by_cases hd : d = (stripScheme cfg.server_url).data
            · exfalso
              apply hne (String.mk u)
              apply String.ext
              rw [stripPre_eq_some hsp, rsplitAt_eq_some hra, hd]
              simp [String.data_append]
            · simp [hra, hd]

/-- C6 witness: the canonical handle of the example server resolves,
and a foreign resource is rejected. -/
theorem c6_webfinger_characterization_witness :
    webfinger exConfig ("acct:" ++ "alice" ++ "@" ++ stripScheme exConfig.server_url) =
      WfResult.ok
        { subject := "acct:" ++ "alice" ++ "@" ++ stripScheme exConfig.server_url
          links :=
            [{ rel := "self"
               link_type := some "application/activity+json"
               href := "http://s.example" ++ "/users/" ++ "alice" },
             { rel := "http://webfinger.net/rel/profile-page"
               link_type := some "text/html"
               href := "http://s.example" ++ "/users/" ++ "alice" }] } ∧
    webfinger exConfig "nope" = WfResult.notFound := by
  constructor
  · exact c6_webfinger_characterization.1 exConfig "alice" (by decide)
  · refine c6_webfinger_characterization.2 exConfig "nope" ?_
    intro user h
    have hlen := congrArg (fun s => s.data.length) h
    simp [String.data_append, stripScheme] at hlen

/-! ## C1 / C10: evaluation of the inbox Create/Note path -/

theorem find?_append_of_none {α} {p : α → Bool} {l1 l2 : List α}
    (h : l1.find? p = none) : (l1 ++ l2).find? p = l2.find? p := by
  rw [List.find?_append, h]
  rfl

theorem any_eq_false_of_find?_eq_none {α} {p : α → Bool} {l : List α}
    (h : l.find? p = none) : l.any p = false := by
  rw [List.any_eq_false]
  intro x hx
  exact List.find?_eq_none.1 h x hx

/-- Evaluation of the inbox handler on a Create activity wrapping a
Note, for an existing target actor: the note is appended exactly when
no note with the extracted id exists, the wrapping activity is
appended exactly when its id is not yet taken, and the response is
202 with no body. -/
theorem inbox_create_eval
    (cfg : Config) (pt : String → Option Nat) (now : Nat)
    (uuid username : String) (act obj : Json) (s : Store) (a : DbActor)
    (hact : s.get_actor_by_username username = some a)
    (hty : (act.get "type").bind Json.asStr = some "Create")
    (hobj : act.get "object" = some obj)
    (hnote : (obj.get "type").bind Json.asStr = some "Note") :
    inbox cfg pt now uuid username act s =
      ({ actors := s.actors
         activities :=
           if s.activities.any (fun b => b.id = getStrD act "id") then s.activities
           else s.activities ++
             [{ id := getStrD act "id"
                actor_id := getStrD act "actor"
                activity_type := "Create"
                object := obj
                to_recipients := getStrList act "to"
                cc_recipients := getStrList act "cc"
                published := getPublished pt now act
                created_at := now }]
         notes :=
           match s.get_note_by_id (getStrD obj "id") with
           | some _ => s.notes
           | none => s.notes ++
             [{ id := getStrD obj "id"
                attributed_to := getStrD obj "attributedTo"
                content := getStrD obj "content"
                to_recipients := getStrList obj "to"
                cc_recipients := getStrList obj "cc"
                published := getPublished pt now obj
                in_reply_to := (obj.get "inReplyTo").bind Json.asStr
                tags := []
                created_at := now }]
         follows := s.follows }, ⟨202, none⟩) := by
  cases hn : s.get_note_by_id (getStrD obj "id") with
  | some w =>
      cases ha : s.activities.any (fun b => b.id = getStrD act "id") with
      | true => simp [inbox, hact, hty, hobj, hnote, hn, ha, Store.create_activity]
      | false => simp [inbox, hact, hty, hobj, hnote, hn, ha, Store.create_activity]
  | none =>
      have hany : s.notes.any (fun m => m.id = getStrD obj "id") = false :=
        any_eq_false_of_find?_eq_none hn
      cases ha : s.activities.any (fun b => b.id = getStrD act "id") with
      | true =>
          simp [inbox, hact, hty, hobj, hnote, hn, hany, ha,
            Store.create_note, Store.create_activity]
      | false =>
          simp [inbox, hact, hty, hobj, hnote, hn, hany, ha,
            Store.create_note, Store.create_activity]

/-- C1: re-POSTing an identical Create/Note activity body to the
inbox leaves the store exactly as after the first POST (the note is
only persisted when absent, and the duplicate activity insert fails
with `AlreadyExists` without changing the store), and afterwards at
most one note with the inner object's id is stored. -/
theorem c1_inbox_create_idempotent
    (cfg : Config) (pt : String → Option Nat) (now1 now2 : Nat)
    (uu1 uu2 username : String) (act obj : Json) (s0 : Store)
    (hty : (act.get "type").bind Json.asStr = some "Create")
    (hobj : act.get "object" = some obj)
    (hnote : (obj.get "type").bind Json.asStr = some "Note")
    (hcount : s0.notes.countP (fun n => n.id = getStrD obj "id") ≤ 1) :
    (inbox cfg pt now2 uu2 username act
        (inbox cfg pt now1 uu1 username act s0).1).1 =
      (inbox cfg pt now1 uu1 username act s0).1 ∧
    ((inbox cfg pt now1 uu1 username act s0).1).notes.countP
        (fun n => n.id = getStrD obj "id") ≤ 1 := by
  cases hact : s0.get_actor_by_username username with
  | none =>
      have e : inbox cfg pt now1 uu1 username act s0 =
          (s0, ⟨404, some (errorBody "Actor not found")⟩) := by
        simp [inbox, hact]
      have e2 : inbox cfg pt now2 uu2 username act s0 =
          (s0, ⟨404, some (errorBody "Actor not found")⟩) := by
        simp [inbox, hact]
      rw [e]
      exact ⟨by rw [e2], hcount⟩
  | some a =>
      have e1 := inbox_create_eval cfg pt now1 uu1 username act obj s0 a
        hact hty hobj hnote
      have hact2 : (inbox cfg pt now1 uu1 username act s0).1.get_actor_by_username
          username = some a := by
        rw [e1]; exact hact
      have hX : ((inbox cfg pt now1 uu1 username act s0).1.get_note_by_id
          (getStrD obj "id")).isSome = true := by
        rw [e1]
        cases hn : s0.get_note_by_id (getStrD obj "id") with
        | some w => simp only [hn]; exact (Option.isSome_iff_exists).2 ⟨w, hn⟩
        | none =>
            simp only [hn]
            show ((s0.notes ++ _).find? _).isSome = true
            rw [find?_append_of_none hn]
            simp [List.find?]
      have hY : (inbox cfg pt now1 uu1 username act s0).1.activities.any
          (fun b => b.id = getStrD act "id") = true := by
        rw [e1]
        cases ha : s0.activities.any (fun b => b.id = getStrD act "id") with
        | true => simp only [ha, if_true]
        | false => simp [ha, List.any_append]
      obtain ⟨w2, hw2⟩ := Option.isSome_iff_exists.1 hX
      constructor
      · rw [inbox_create_eval cfg pt now2 uu2 username act obj
          ((inbox cfg pt now1 uu1 username act s0).1) a hact2 hty hobj hnote,
          hw2, hY]
        rfl
      · rw [e1]
        cases hn : s0.get_note_by_id (getStrD obj "id") with
        | some w => simp only [hn]; exact hcount
        | none =>
            simp only [hn]
            rw [List.countP_append]
            have h0 : s0.notes.countP (fun n => n.id = getStrD obj "id") = 0 := by
              rw [List.countP_eq_zero]
              intro x hx
              exact List.find?_eq_none.1 hn x hx
            simp [h0, List.countP_cons]

/-- C1 witness: delivering the example Create/Note twice to the
example store is idempotent. -/
theorem c1_inbox_create_idempotent_witness :
    (inbox exConfig exParse 2 "b" "bob" exCreateNote
        (inbox exConfig exParse 1 "a" "bob" exCreateNote exStore).1).1 =
      (inbox exConfig exParse 1 "a" "bob" exCreateNote exStore).1 ∧
    ((inbox exConfig exParse 1 "a" "bob" exCreateNote exStore).1).notes.countP
        (fun n => n.id = getStrD (Json.obj
          [("type", Json.str "Note"),
           ("id", Json.str "https://remote.example/n/1"),
           ("attributedTo", Json.str "https://remote.example/users/carol"),
           ("content", Json.str "hi")]) "id") ≤ 1 :=
  c1_inbox_create_idempotent exConfig exParse 1 2 "a" "b" "bob" exCreateNote
    (Json.obj
      [("type", Json.str "Note"),
       ("id", Json.str "https://remote.example/n/1"),
       ("attributedTo", Json.str "https://remote.example/users/carol"),
       ("content", Json.str "hi")])
    exStore rfl rfl rfl (by decide)

/-- C10: an inbox Create/Note for an existing actor is never rejected
for missing fields: the response is 202, and with `object.id`,
`attributedTo`, `content` absent or non-strings and `to`/`cc` absent
or non-arrays, a note with id `""`, empty attribution, empty content
and empty recipient lists is persisted whenever no note with id `""`
exists. -/
theorem c10_inbox_missing_fields_default
    (cfg : Config) (pt : String → Option Nat) (now : Nat)
    (uuid username : String) (act obj : Json) (s : Store) (a : DbActor)
    (hact : s.get_actor_by_username username = some a)
    (hty : (act.get "type").bind Json.asStr = some "Create")
    (hobj : act.get "object" = some obj)
    (hnote : (obj.get "type").bind Json.asStr = some "Note")
    (hid : (obj.get "id").bind Json.asStr = none)
    (hattr : (obj.get "attributedTo").bind Json.asStr = none)
    (hcont : (obj.get "content").bind Json.asStr = none)
    (hto : (obj.get "to").bind Json.asArr = none)
    (hcc : (obj.get "cc").bind Json.asArr = none)
    (hnone : s.get_note_by_id "" = none) :
    (inbox cfg pt now uuid username act s).2 = ⟨202, none⟩ ∧
    (inbox cfg pt now uuid username act s).1.notes =
      s.notes ++
        [{ id := ""
           attributed_to := ""
           content := ""
           to_recipients := []
           cc_recipients := []
           published := getPublished pt now obj
           in_reply_to := (obj.get "inReplyTo").bind Json.asStr
           tags := []
           created_at := now }] := by
  have e1 := inbox_create_eval cfg pt now uuid username act obj s a
    hact hty hobj hnote
  have hid' : getStrD obj "id" = "" := by simp [getStrD, hid]
  have hattr' : getStrD obj "attributedTo" = "" := by simp [getStrD, hattr]
  have hcont' : getStrD obj "content" = "" := by simp [getStrD, hcont]
  have hto' : getStrList obj "to" = [] := by simp [getStrList, hto]
  have hcc' : getStrList obj "cc" = [] := by simp [getStrList, hcc]
  rw [e1]
  refine ⟨rfl, ?_⟩
  simp only [hid', hattr', hcont', hto', hcc', hnone]

/-- C10 witness: a Create whose Note object carries only its type is
accepted with 202 and persisted as the all-defaults note. -/
theorem c10_inbox_missing_fields_default_witness :
    (inbox exConfig exParse 4 "u" "bob"
        (Json.obj [("type", Json.str "Create"),
                   ("object", Json.obj [("type", Json.str "Note")])]) exStore).2 =
      ⟨202, none⟩ ∧
    (inbox exConfig exParse 4 "u" "bob"
        (Json.obj [("type", Json.str "Create"),
                   ("object", Json.obj [("type", Json.str "Note")])]) exStore).1.notes =
      exStore.notes ++
        [{ id := ""
           attributed_to := ""
           content := ""
           to_recipients := []
           cc_recipients := []
           published := getPublished exParse 4 (Json.obj [("type", Json.str "Note")])
           in_reply_to := ((Json.obj [("type", Json.str "Note")]).get "inReplyTo").bind
             Json.asStr
           tags := []
           created_at := 4 }] :=
  c10_inbox_missing_fields_default exConfig exParse 4 "u" "bob"
    (Json.obj [("type", Json.str "Create"),
               ("object", Json.obj [("type", Json.str "Note")])])
    (Json.obj [("type", Json.str "Note")]) exStore exActor
    rfl rfl rfl rfl rfl rfl rfl rfl rfl rfl

/-! ## C3: SQL LIKE versus exact membership -/

theorem likeMatch_percent (s : List Char) : likeMatch ['%'] s = true := by
  induction s with
  | nil => simp [likeMatch]
  | cons c cs ih => simp [likeMatch, ih]

theorem likeMatch_lit (p : List Char) (hp : ∀ c ∈ p, c ≠ '%' ∧ c ≠ '_') :
    ∀ s : List Char, likeMatch (p ++ ['%']) s = p.isPrefixOf s := by
  induction p with
  | nil =>
      intro s
      simp [likeMatch_percent, List.isPrefixOf]
  | cons c ps ih =>
      intro s
      have hc := hp c (List.mem_cons_self c ps)
      have hps : ∀ x ∈ ps, x ≠ '%' ∧ x ≠ '_' :=
        fun x hx => hp x (List.mem_cons_of_mem _ hx)
      cases s with
      | nil =>
          rw [List.cons_append, likeMatch.eq_def]
          simp [hc.1, hc.2, List.isPrefixOf]
      | cons c2 cs =>
          rw [List.cons_append, likeMatch.eq_def]
          simp only [List.isPrefixOf]
          simp [hc.1, hc.2, ih hps cs]
          by_cases hcc : c = c2 <;> simp [hcc]

theorem likeContains_eq_containsSub (needle hay : String)
    (hw : ∀ c ∈ needle.data, c ≠ '%' ∧ c ≠ '_') :
    likeContains needle hay = containsSub needle.data hay.data := by
  unfold likeContains
  induction hay.data with
  | nil =>
      rw [likeMatch.eq_def]
      simp only []
      rw [likeMatch_lit needle.data hw]
      cases hnd : needle.data with
      | nil => simp [containsSub, List.isPrefixOf]
      | cons c cs => simp [containsSub, List.isPrefixOf]
  | cons c cs ih =>
      rw [likeMatch.eq_def]
      simp only []
      rw [likeMatch_lit needle.data hw, ih]
      simp [containsSub]

theorem containsSub_correct (n h : List Char) :
    containsSub n h = true ↔ n <:+: h := by
  induction h with
  | nil =>
      simp only [containsSub, List.isEmpty_iff]
      constructor
      · intro hn; simp [hn]
      · intro hn
        exact List.eq_nil_of_infix_nil hn
  | cons c cs ih =>
      simp only [containsSub, Bool.or_eq_true, List.isPrefixOf_iff_prefix, ih]
      rw [List.infix_cons_iff]

theorem flatMap_id_of_plain {l : List Char}
    (h : ∀ c ∈ l, escapeJsonChar c = [c]) : l.flatMap escapeJsonChar = l := by
  induction l with
  | nil => rfl
  | cons c cs ih =>
      rw [List.flatMap_cons, h c (List.mem_cons_self c cs),
        ih (fun x hx => h x (List.mem_cons_of_mem _ hx))]
      rfl

theorem serializeJson_plain {x : String}
    (hx : ∀ c ∈ x.data, escapeJsonChar c = [c]) :
    serializeJsonStringChars x = '"' :: x.data ++ ['"'] := by
  unfold serializeJsonStringChars
  rw [flatMap_id_of_plain hx]

theorem serializeListChars_infix {x : String} {xs : List String} (hmem : x ∈ xs) :
    serializeJsonStringChars x <:+: serializeListChars xs := by
  induction xs with
  | nil => cases hmem
  | cons y ys ih =>
      rcases List.mem_cons.1 hmem with hxy | hmem2
      · subst hxy
        cases ys with
        | nil => exact List.infix_refl _
        | cons z rest =>
            show serializeJsonStringChars x <:+:
              serializeJsonStringChars x ++ ',' :: serializeListChars (z :: rest)
            exact (List.prefix_append _ _).isInfix
      · have hne : ys ≠ [] := by
          intro hnil; rw [hnil] at hmem2; cases hmem2
        obtain ⟨z, rest, hz⟩ := List.exists_cons_of_ne_nil hne
        subst hz
        show serializeJsonStringChars x <:+:
          serializeJsonStringChars y ++ ',' :: serializeListChars (z :: rest)
        exact (ih hmem2).trans
          (((List.suffix_cons ',' _).trans (List.suffix_append _ _)).isInfix)

theorem mem_infix_serializeStringList {x : String} {xs : List String}
    (hmem : x ∈ xs) (hx : ∀ c ∈ x.data, escapeJsonChar c = [c]) :
    x.data <:+: (serializeStringList xs).data := by
  have h1 : x.data <:+: serializeJsonStringChars x := by
    rw [serializeJson_plain hx]
    exact ⟨['"'], ['"'], by simp⟩
  have h2 := serializeListChars_infix hmem
  have h3 : serializeListChars xs <:+: ('[' :: serializeListChars xs ++ [']']) :=
    ⟨['['], [']'], by simp⟩
  exact (h1.trans h2).trans h3

theorem inboxMatch_of_specMember (aid : String) (a : DbActivity)
    (hw : ∀ c ∈ aid.data, c ≠ '%' ∧ c ≠ '_')
    (hp : ∀ c ∈ aid.data, escapeJsonChar c = [c])
    (hmem : specInboxMember aid a = true) : inboxMatch aid a = true := by
  unfold specInboxMember at hmem
  unfold inboxMatch
  rw [likeContains_eq_containsSub _ _ hw, likeContains_eq_containsSub _ _ hw,
    Bool.or_eq_true]
  rw [Bool.or_eq_true] at hmem
  rcases hmem with hm | hm
  · have hmem2 : aid ∈ a.to_recipients := by
      simpa using hm
    exact Or.inl
      ((containsSub_correct _ _).2 (mem_infix_serializeStringList hmem2 hp))
  · have hmem2 : aid ∈ a.cc_recipients := by
      simpa using hm
    exact Or.inr
      ((containsSub_correct _ _).2 (mem_infix_serializeStringList hmem2 hp))

theorem insertPublishedDesc_perm (a : DbActivity) (l : List DbActivity) :
    List.Perm (insertPublishedDesc a l) (a :: l) := by
  induction l with
  | nil => exact List.Perm.refl _
  | cons b bs ih =>
      unfold insertPublishedDesc
      by_cases hb : b.published ≤ a.published
      · rw [if_pos hb]
      · rw [if_neg hb]
        exact (ih.cons b).trans (List.Perm.swap a b bs)

theorem sortPublishedDesc_perm (l : List DbActivity) :
    List.Perm (sortPublishedDesc l) l := by
  induction l with
  | nil => exact List.Perm.refl _
  | cons a as_ ih =>
      unfold sortPublishedDesc
      exact (insertPublishedDesc_perm a _).trans (ih.cons a)

theorem insertPublishedDesc_sorted (a : DbActivity) (l : List DbActivity)
    (hl : l.Pairwise (fun x y => y.published ≤ x.published)) :
    (insertPublishedDesc a l).Pairwise (fun x y => y.published ≤ x.published) := by
  induction l with
  | nil => simp [insertPublishedDesc]
  | cons b bs ih =>
      rw [List.pairwise_cons] at hl
      obtain ⟨hb, hbs⟩ := hl
      unfold insertPublishedDesc
      by_cases hba : b.published ≤ a.published
      · rw [if_pos hba, List.pairwise_cons]
        constructor
        · intro y hy
          rcases List.mem_cons.1 hy with h1 | h2
          · subst h1; exact hba
          · exact le_trans (hb y h2) hba
        · rw [List.pairwise_cons]
          exact ⟨hb, hbs⟩
      · rw [if_neg hba, List.pairwise_cons]
        constructor
        · intro y hy
          have hy2 := (insertPublishedDesc_perm a bs).mem_iff.1 hy
          rcases List.mem_cons.1 hy2 with h1 | h2
          · subst h1; exact le_of_not_le hba
          · exact hb y h2
        · exact ih hbs

theorem sortPublishedDesc_sorted (l : List DbActivity) :
    (sortPublishedDesc l).Pairwise (fun x y => y.published ≤ x.published) := by
  induction l with
  | nil => simp [sortPublishedDesc]
  | cons a as_ ih => exact insertPublishedDesc_sorted a _ ih

/-- C3 counterexample: the store holds one activity whose only
recipient is `http://s.example/users/bob2`; querying the inbox for
`http://s.example/users/bob` returns that activity (the SQL LIKE
matches the substring) even though the queried id is not an element
of its `to` or `cc` list, contradicting the exact-match claim. -/
theorem c3_counterexample :
    get_inbox_activities ex3Store ex3Aid 10 0 = [ex3Act] ∧
    specInboxMember ex3Aid ex3Act = false := by
  constructor
  · have h1 : inboxMatch ex3Aid ex3Act = true := by
      unfold inboxMatch
      rw [likeContains_eq_containsSub _ _ (by decide),
        likeContains_eq_containsSub _ _ (by decide)]
      decide
    simp [get_inbox_activities, ex3Store, h1, sortPublishedDesc,
      insertPublishedDesc]
  · decide

/-- C3 (amended): the inbox query filters by SQL LIKE containment of
the actor id inside the JSON-serialized `to`/`cc` columns — a strict
superset of exact membership: every exact recipient is matched (for
wildcard-free, escape-free ids), everything returned is LIKE-matched
and drawn from the store, the result is ordered by `published`
descending, and the inbox count counts exactly the LIKE-matched
activities (a full-window query returns `count` rows). -/
theorem c3_inbox_query_like_semantics
    (s : Store) (actor_id : String) (limit offset : Nat)
    (hw : ∀ c ∈ actor_id.data, c ≠ '%' ∧ c ≠ '_')
    (hp : ∀ c ∈ actor_id.data, escapeJsonChar c = [c]) :
    (∀ a ∈ s.activities, specInboxMember actor_id a = true →
      inboxMatch actor_id a = true) ∧
    (∀ a ∈ get_inbox_activities s actor_id limit offset,
      a ∈ s.activities ∧ inboxMatch actor_id a = true) ∧
    (get_inbox_activities s actor_id limit offset).Pairwise
      (fun x y => y.published ≤ x.published) ∧
    (get_inbox_activities s actor_id (get_actor_inbox_count s actor_id) 0).length =
      get_actor_inbox_count s actor_id := by
  refine ⟨?_, ?_, ?_, ?_⟩
  · intro a _ hmem
    exact inboxMatch_of_specMember actor_id a hw hp hmem
  · intro a ha
    unfold get_inbox_activities at ha
    have h1 : a ∈ sortPublishedDesc (s.activities.filter (inboxMatch actor_id)) :=
      ((List.take_sublist _ _).trans (List.drop_sublist _ _)).mem ha
    have h2 : a ∈ s.activities.filter (inboxMatch actor_id) :=
      (sortPublishedDesc_perm _).mem_iff.1 h1
    exact List.mem_filter.1 h2
  · unfold get_inbox_activities
    exact List.Pairwise.sublist
      ((List.take_sublist _ _).trans (List.drop_sublist _ _))
      (sortPublishedDesc_sorted _)
  · unfold get_inbox_activities get_actor_inbox_count
    rw [List.drop_zero]
    have hlen : (sortPublishedDesc (s.activities.filter (inboxMatch actor_id))).length =
        (s.activities.filter (inboxMatch actor_id)).length :=
      (sortPublishedDesc_perm _).length_eq
    rw [List.take_of_length_le (le_of_eq hlen), hlen]

/-- C3 witness: the amended characterization instantiated at the
counterexample store. -/
theorem c3_inbox_query_like_semantics_witness :
    (∀ c ∈ ex3Aid.data, c ≠ '%' ∧ c ≠ '_') ∧
    (get_inbox_activities ex3Store ex3Aid 10 0).Pairwise
      (fun x y => y.published ≤ x.published) :=
  ⟨by decide,
   (c3_inbox_query_like_semantics ex3Store ex3Aid 10 0 (by decide)
     (by decide)).2.2.1⟩
